import Mathlib

/-!
Shallow embedding of the fusion core of `src/public/agri_drone_system.py`
(repository terrasight).

The embedding covers the decision logic the specification calls "the core":
`FusionEngine.fuse_results`, together with the parts of `WeedPestDetector`
whose behaviour is decidable from its code (`detect`'s error handling and
`_categorize_detection`).  Python floats are modelled as exact rationals
(`ℚ`); Python strings as `String`; the numpy mean as sum divided by length;
the YOLO model call, which can raise, as an `Except`-valued oracle supplied
per call.
-/

/-- Mean of a list of rationals, as `np.mean` computes it on a non-empty
array (sum divided by length).  `fuse_results` applies it to the flattened
vegetation-index array. -/
def npMean (xs : List ℚ) : ℚ := xs.sum / (xs.length : ℚ)

/-- One detection record as built by `WeedPestDetector.detect`: the dict
with keys bbox, confidence, label, category. -/
structure Detection where
  bbox : List Int
  confidence : ℚ
  label : String
  category : String
deriving DecidableEq

/-- The diagnosis dict built by `FusionEngine.fuse_results`. -/
structure Diagnosis where
  crop_type : String
  disease_name : String
  overall_health : String
  confidence : ℚ
  issues : List String
  recommendations : List String
deriving DecidableEq

/-- Round a rational to the nearest integer, ties to even: the rounding the
Python float formatting of `fuse_results` performs when it renders a
confidence with two decimal digits. -/
def roundHalfEven (q : ℚ) : ℤ :=
  let f := Int.fdiv q.num q.den
  let r := q - (f : ℚ)
  if r < 1/2 then f
  else if (1 : ℚ)/2 < r then f + 1
  else if f % 2 = 0 then f else f + 1

/-- Python's percent format with two decimal digits, used by
`fuse_results` for confidences: value times 100, rounded to two decimals,
rendered with a trailing percent sign (0.9 becomes "90.00%"). -/
def formatPercent2 (x : ℚ) : String :=
  let n := roundHalfEven (x * 10000)
  let sign := if n < 0 then "-" else ""
  let m := n.natAbs
  let fracStr := if m % 100 < 10 then "0" ++ toString (m % 100) else toString (m % 100)
  sign ++ toString (m / 100) ++ "." ++ fracStr ++ "%"

/-- Issue text of rule 1 of `fuse_results`. -/
def lowVegIssue : String := "Low vegetation index detected (stress/disease likely)"

/-- Recommendation text of rule 1 of `fuse_results`. -/
def inspectRec : String := "Inspect for disease, water stress, or nutrient deficiency"

/-- Issue text of rule 2 of `fuse_results` for a diseased crop. -/
def diseaseIssue (disease_name : String) (health_confidence : ℚ) : String :=
  "Disease detected: " ++ disease_name ++ " (confidence: " ++
    formatPercent2 health_confidence ++ ")"

/-- Recommendation text of rule 2 of `fuse_results` for a diseased crop. -/
def treatRec (disease_name : String) : String :=
  "Apply appropriate treatment for " ++ disease_name

/-- Issue text of rule 2 of `fuse_results` for a stressed crop. -/
def stressIssue (health_confidence : ℚ) : String :=
  "Crop stress detected (confidence: " ++ formatPercent2 health_confidence ++ ")"

/-- Recommendation text of rule 2 of `fuse_results` for a stressed crop. -/
def irrigationRec : String := "Check irrigation and nutrient levels"

/-- Issue text of rule 3 of `fuse_results` for weeds. -/
def weedIssue (weed_count : Nat) : String :=
  toString weed_count ++ " potential weed(s) detected"

/-- Recommendation text of rule 3 of `fuse_results` for weeds. -/
def herbicideRec : String := "Consider targeted herbicide application or manual removal"

/-- Issue text of rule 3 of `fuse_results` for pests. -/
def pestIssue (pest_count : Nat) : String :=
  toString pest_count ++ " potential pest(s) detected"

/-- Recommendation text of rule 3 of `fuse_results` for pests. -/
def ipmRec : String := "Monitor pest population and apply IPM strategies"

/-- Issue text of rule 4 of `fuse_results`. -/
def criticalIssue : String := "CRITICAL: Multiple stress factors detected"

/-- Recommendation text of rule 4 of `fuse_results`. -/
def interventionRec : String := "Immediate intervention required"

/-- The default recommendation of `fuse_results`. -/
def defaultRec : String := "Continue regular monitoring"

/-- Issues appended by rule 2 of `fuse_results` (the health-classification
if/elif chain). -/
def rule2Issues (health_status : String) (health_confidence : ℚ)
    (disease_name : String) : List String :=
  if health_status = "Diseased" then [diseaseIssue disease_name health_confidence]
  else if health_status = "Stressed" then [stressIssue health_confidence]
  else []

/-- Recommendations appended by rule 2 of `fuse_results`. -/
def rule2Recs (health_status disease_name : String) : List String :=
  if health_status = "Diseased" then [treatRec disease_name]
  else if health_status = "Stressed" then [irrigationRec]
  else []

/-- Rule 3 of `fuse_results`: sum of 1 for d in detections if
d.category equals weed. -/
def weed_count (detections : List Detection) : Nat :=
  detections.countP (fun d => d.category == "weed")

/-- Rule 3 of `fuse_results`: sum of 1 for d in detections if
d.category equals pest. -/
def pest_count (detections : List Detection) : Nat :=
  detections.countP (fun d => d.category == "pest")

/-- The diagnosis after rules 1 to 4 of `fuse_results`, before the default
recommendation.  Each rule appends to the end of issues and
recommendations, so the final lists are the concatenation of the
per-rule segments in rule order. -/
def applyRules (avg_vi : ℚ) (health_status : String) (health_confidence : ℚ)
    (detections : List Detection) (disease_name crop_type : String) : Diagnosis :=
  { crop_type := crop_type
    disease_name := disease_name
    overall_health := health_status
    confidence := health_confidence
    issues :=
      (if avg_vi < 0.3 then [lowVegIssue] else []) ++
      rule2Issues health_status health_confidence disease_name ++
      (if 0 < weed_count detections then [weedIssue (weed_count detections)] else []) ++
      (if 0 < pest_count detections then [pestIssue (pest_count detections)] else []) ++
      (if avg_vi < 0.3 ∧ health_status = "Diseased" then [criticalIssue] else [])
    recommendations :=
      (if avg_vi < 0.3 then [inspectRec] else []) ++
      rule2Recs health_status disease_name ++
      (if 0 < weed_count detections then [herbicideRec] else []) ++
      (if 0 < pest_count detections then [ipmRec] else []) ++
      (if avg_vi < 0.3 ∧ health_status = "Diseased" then [interventionRec] else []) }

/-- The default-recommendation rule of `fuse_results`: if recommendations
is still empty, append the default entry. -/
def applyDefaultRec (d : Diagnosis) : Diagnosis :=
  if d.recommendations = [] then
    { d with recommendations := d.recommendations ++ [defaultRec] }
  else d

/-- The body of `FusionEngine.fuse_results` after the line that averages
the vegetation-index array: the fusion contract
fuse(avg_vegetation_index, health, detections) of the specification. -/
def fuse (avg_vi : ℚ) (health_status : String) (health_confidence : ℚ)
    (detections : List Detection) (disease_name crop_type : String) : Diagnosis :=
  applyDefaultRec
    (applyRules avg_vi health_status health_confidence detections disease_name crop_type)

/-- `FusionEngine.fuse_results` as written in the source: it receives the
segmentation mask and the full vegetation-index array, averages the array,
and never reads the mask. -/
def fuse_results (segmentation_mask : List (List Nat)) (health_status : String)
    (health_confidence : ℚ) (detections : List Detection)
    (vegetation_index : List ℚ) (disease_name crop_type : String) : Diagnosis :=
  fuse (npMean vegetation_index) health_status health_confidence detections
    disease_name crop_type

/-- The `FusionEngine` object: its only state is the `rules` dict set up by
`__init__` (three empty lists), which `fuse_results` never reads or
writes. -/
structure FusionEngine where
  rulesCritical : List String
  rulesWarning : List String
  rulesInfo : List String
deriving DecidableEq

/-- `FusionEngine()` as `__init__` builds it. -/
def FusionEngine.init : FusionEngine :=
  { rulesCritical := [], rulesWarning := [], rulesInfo := [] }

/-- The method call `engine.fuse_results(...)`, modelled state-passing: a
Python method may mutate `self`, so the embedding returns the diagnosis
together with the engine state after the call.  The body touches no field
of `self`, hence the state is returned unchanged. -/
def FusionEngine.fuseResults (self : FusionEngine)
    (segmentation_mask : List (List Nat)) (health_status : String)
    (health_confidence : ℚ) (detections : List Detection)
    (vegetation_index : List ℚ) (disease_name crop_type : String) :
    Diagnosis × FusionEngine :=
  (fuse_results segmentation_mask health_status health_confidence detections
    vegetation_index disease_name crop_type, self)

/-- Whether the pattern list is an initial segment of the other list
(helper for Python's substring test `kw in label`). -/
def chListStarts : List Char → List Char → Bool
  | [], _ => true
  | _ :: _, [] => false
  | p :: ps, c :: cs => p == c && chListStarts ps cs

/-- Whether the pattern list occurs contiguously inside the other list. -/
def chListHasSub (pat : List Char) : List Char → Bool
  | [] => chListStarts pat []
  | c :: cs => chListStarts pat (c :: cs) || chListHasSub pat cs

/-- Python's `pat in s` on strings: containment as a contiguous
substring. -/
def strContainsSub (s pat : String) : Bool :=
  chListHasSub pat.data s.data

/-- The weed keyword table of `WeedPestDetector._categorize_detection`. -/
def weed_keywords : List String := ["plant", "potted plant"]

/-- The pest keyword table of `WeedPestDetector._categorize_detection`. -/
def pest_keywords : List String := ["bird", "insect", "bee"]

/-- One raw box of a YOLO result before categorization: coordinates,
confidence and the label text looked up in `result.names`. -/
structure RawBox where
  bbox : List Int
  conf : ℚ
  label : String
deriving DecidableEq

/-- The `WeedPestDetector` object: the `available` flag set by `__init__`
from the optional-dependency import and the model-load attempt.  The model
itself stays outside the embedding; each `detect` call receives the model
call's outcome as an oracle. -/
structure WeedPestDetector where
  available : Bool
deriving DecidableEq

/-- `WeedPestDetector._categorize_detection`: lowercase the label, return
weed on a weed-keyword hit, else pest on a pest-keyword hit, else None. -/
def WeedPestDetector.categorize_detection (label : String) : Option String :=
  let label_lower := label.toLower
  if weed_keywords.any (fun kw => strContainsSub label_lower kw) then some "weed"
  else if pest_keywords.any (fun kw => strContainsSub label_lower kw) then some "pest"
  else none

/-- `WeedPestDetector.detect`: an unavailable detector degrades to an empty
list with a status message; a raising model call (the `except` branch) to an
empty list with the exception text; on success every box whose label
categorizes is kept as a detection and the rest are dropped. -/
def WeedPestDetector.detect (self : WeedPestDetector)
    (inference : Except String (List RawBox)) : List Detection × String :=
  if !self.available then ([], "YOLOv8 not available")
  else
    match inference with
    | Except.error e => ([], "Detection failed: " ++ e)
    | Except.ok boxes =>
        (boxes.filterMap (fun box =>
          (WeedPestDetector.categorize_detection box.label).map (fun category =>
            { bbox := box.bbox, confidence := box.conf, label := box.label,
              category := category })), "Success")

/-- Element of a character list at an index, by structural recursion. -/
def optNth : List Char → Nat → Option Char
  | [], _ => none
  | c :: _, 0 => some c
  | _ :: cs, k + 1 => optNth cs k

/-- Character of a string at a position from the front: a probe used to
tell the rule texts of `fuse_results` apart. -/
def fstGet (s : String) (k : Nat) : Option Char := optNth s.data k

/-- Character of a string at a position from the back. -/
def revGet (s : String) (k : Nat) : Option Char := optNth s.data.reverse k

theorem str_ne_of_fstGet {s t : String} (k : Nat) (h : fstGet s k ≠ fstGet t k) :
    s ≠ t :=
  fun he => h (by rw [he])

theorem str_ne_of_revGet {s t : String} (k : Nat) (h : revGet s k ≠ revGet t k) :
    s ≠ t :=
  fun he => h (by rw [he])

theorem diseaseIssue_fstGet0 (dn : String) (hc : ℚ) :
    fstGet (diseaseIssue dn hc) 0 = some 'D' := by
  unfold diseaseIssue fstGet
  simp only [String.data_append]
  rfl

theorem diseaseIssue_revGet0 (dn : String) (hc : ℚ) :
    revGet (diseaseIssue dn hc) 0 = some ')' := by
  unfold diseaseIssue revGet
  simp only [String.data_append, List.reverse_append]
  rfl

theorem stressIssue_fstGet0 (hc : ℚ) : fstGet (stressIssue hc) 0 = some 'C' := by
  unfold stressIssue fstGet
  simp only [String.data_append]
  rfl

theorem stressIssue_revGet0 (hc : ℚ) : revGet (stressIssue hc) 0 = some ')' := by
  unfold stressIssue revGet
  simp only [String.data_append, List.reverse_append]
  rfl

theorem weedIssue_revGet0 (n : Nat) : revGet (weedIssue n) 0 = some 'd' := by
  unfold weedIssue revGet
  simp only [String.data_append, List.reverse_append]
  rfl

theorem weedIssue_revGet9 (n : Nat) : revGet (weedIssue n) 9 = some ')' := by
  unfold weedIssue revGet
  simp only [String.data_append, List.reverse_append]
  rfl

theorem weedIssue_revGet12 (n : Nat) : revGet (weedIssue n) 12 = some 'd' := by
  unfold weedIssue revGet
  simp only [String.data_append, List.reverse_append]
  rfl

theorem pestIssue_revGet0 (n : Nat) : revGet (pestIssue n) 0 = some 'd' := by
  unfold pestIssue revGet
  simp only [String.data_append, List.reverse_append]
  rfl

theorem pestIssue_revGet9 (n : Nat) : revGet (pestIssue n) 9 = some ')' := by
  unfold pestIssue revGet
  simp only [String.data_append, List.reverse_append]
  rfl

theorem pestIssue_revGet12 (n : Nat) : revGet (pestIssue n) 12 = some 't' := by
  unfold pestIssue revGet
  simp only [String.data_append, List.reverse_append]
  rfl

theorem treatRec_fstGet0 (dn : String) : fstGet (treatRec dn) 0 = some 'A' := by
  unfold treatRec fstGet
  simp only [String.data_append]
  rfl

theorem diseaseIssue_ne_lowVeg (dn : String) (hc : ℚ) :
    diseaseIssue dn hc ≠ lowVegIssue :=
  str_ne_of_fstGet 0 (by rw [diseaseIssue_fstGet0]; decide)

theorem stressIssue_ne_lowVeg (hc : ℚ) : stressIssue hc ≠ lowVegIssue :=
  str_ne_of_fstGet 0 (by rw [stressIssue_fstGet0]; decide)

theorem weedIssue_ne_lowVeg (n : Nat) : weedIssue n ≠ lowVegIssue :=
  str_ne_of_revGet 0 (by rw [weedIssue_revGet0]; decide)

theorem pestIssue_ne_lowVeg (n : Nat) : pestIssue n ≠ lowVegIssue :=
  str_ne_of_revGet 0 (by rw [pestIssue_revGet0]; decide)

theorem criticalIssue_ne_lowVeg : criticalIssue ≠ lowVegIssue := by decide

theorem weedIssue_ne_diseaseIssue (n : Nat) (dn : String) (hc : ℚ) :
    weedIssue n ≠ diseaseIssue dn hc :=
  str_ne_of_revGet 0 (by rw [weedIssue_revGet0, diseaseIssue_revGet0]; decide)

theorem weedIssue_ne_stressIssue (n : Nat) (hc : ℚ) :
    weedIssue n ≠ stressIssue hc :=
  str_ne_of_revGet 0 (by rw [weedIssue_revGet0, stressIssue_revGet0]; decide)

theorem weedIssue_ne_criticalIssue (n : Nat) : weedIssue n ≠ criticalIssue :=
  str_ne_of_revGet 9 (by rw [weedIssue_revGet9]; decide)

theorem pestIssue_ne_diseaseIssue (n : Nat) (dn : String) (hc : ℚ) :
    pestIssue n ≠ diseaseIssue dn hc :=
  str_ne_of_revGet 0 (by rw [pestIssue_revGet0, diseaseIssue_revGet0]; decide)

theorem pestIssue_ne_stressIssue (n : Nat) (hc : ℚ) :
    pestIssue n ≠ stressIssue hc :=
  str_ne_of_revGet 0 (by rw [pestIssue_revGet0, stressIssue_revGet0]; decide)

theorem pestIssue_ne_criticalIssue (n : Nat) : pestIssue n ≠ criticalIssue :=
  str_ne_of_revGet 9 (by rw [pestIssue_revGet9]; decide)

theorem weedIssue_ne_pestIssue (n m : Nat) : weedIssue n ≠ pestIssue m :=
  str_ne_of_revGet 12 (by rw [weedIssue_revGet12, pestIssue_revGet12]; decide)

theorem treatRec_ne_inspectRec (dn : String) : treatRec dn ≠ inspectRec :=
  str_ne_of_fstGet 0 (by rw [treatRec_fstGet0]; decide)

theorem treatRec_ne_herbicideRec (dn : String) : treatRec dn ≠ herbicideRec :=
  str_ne_of_fstGet 0 (by rw [treatRec_fstGet0]; decide)

theorem treatRec_ne_ipmRec (dn : String) : treatRec dn ≠ ipmRec :=
  str_ne_of_fstGet 0 (by rw [treatRec_fstGet0]; decide)

theorem treatRec_ne_defaultRec (dn : String) : treatRec dn ≠ defaultRec :=
  str_ne_of_fstGet 0 (by rw [treatRec_fstGet0]; decide)

theorem applyDefaultRec_issues (d : Diagnosis) :
    (applyDefaultRec d).issues = d.issues := by
  unfold applyDefaultRec; split <;> rfl

theorem applyDefaultRec_overall (d : Diagnosis) :
    (applyDefaultRec d).overall_health = d.overall_health := by
  unfold applyDefaultRec; split <;> rfl

theorem applyDefaultRec_confidence (d : Diagnosis) :
    (applyDefaultRec d).confidence = d.confidence := by
  unfold applyDefaultRec; split <;> rfl

theorem applyDefaultRec_recs_ne_nil (d : Diagnosis) :
    (applyDefaultRec d).recommendations ≠ [] := by
  unfold applyDefaultRec; split
  · simp
  · next h => exact h

theorem applyDefaultRec_recs_nil {d : Diagnosis} (h : d.recommendations = []) :
    (applyDefaultRec d).recommendations = [defaultRec] := by
  unfold applyDefaultRec; rw [if_pos h]; simp [h]

theorem applyDefaultRec_recs_of_ne {d : Diagnosis} (h : d.recommendations ≠ []) :
    (applyDefaultRec d).recommendations = d.recommendations := by
  unfold applyDefaultRec; rw [if_neg h]

theorem applyDefaultRec_mem_recs {d : Diagnosis} {r : String} (hr : r ≠ defaultRec) :
    (r ∈ (applyDefaultRec d).recommendations ↔ r ∈ d.recommendations) := by
  unfold applyDefaultRec; split
  · next h => simp [h, hr]
  · exact Iff.rfl

theorem mem_ite_singleton {c : Prop} [Decidable c] {x a : String} :
    (a ∈ (if c then [x] else [])) ↔ c ∧ a = x := by
  split <;> simp_all

theorem fuse_issues (avg_vi : ℚ) (hs : String) (hc : ℚ) (dets : List Detection)
    (dn ct : String) :
    (fuse avg_vi hs hc dets dn ct).issues =
      (if avg_vi < 0.3 then [lowVegIssue] else []) ++
      rule2Issues hs hc dn ++
      (if 0 < weed_count dets then [weedIssue (weed_count dets)] else []) ++
      (if 0 < pest_count dets then [pestIssue (pest_count dets)] else []) ++
      (if avg_vi < 0.3 ∧ hs = "Diseased" then [criticalIssue] else []) := by
  unfold fuse
  rw [applyDefaultRec_issues]
  rfl

theorem applyRules_recs (avg_vi : ℚ) (hs : String) (hc : ℚ) (dets : List Detection)
    (dn ct : String) :
    (applyRules avg_vi hs hc dets dn ct).recommendations =
      (if avg_vi < 0.3 then [inspectRec] else []) ++
      rule2Recs hs dn ++
      (if 0 < weed_count dets then [herbicideRec] else []) ++
      (if 0 < pest_count dets then [ipmRec] else []) ++
      (if avg_vi < 0.3 ∧ hs = "Diseased" then [interventionRec] else []) :=
  rfl

theorem fuse_overall (avg_vi : ℚ) (hs : String) (hc : ℚ) (dets : List Detection)
    (dn ct : String) : (fuse avg_vi hs hc dets dn ct).overall_health = hs := by
  unfold fuse
  rw [applyDefaultRec_overall]
  rfl

theorem fuse_confidence (avg_vi : ℚ) (hs : String) (hc : ℚ) (dets : List Detection)
    (dn ct : String) : (fuse avg_vi hs hc dets dn ct).confidence = hc := by
  unfold fuse
  rw [applyDefaultRec_confidence]
  rfl

/-- C1: for every input, `fuse_results` returns a diagnosis (the embedding
is a total function) whose recommendations list is non-empty; when rules
1 to 4 appended no recommendation, the default rule makes the list exactly
the fallback entry "Continue regular monitoring". -/
theorem fuse_recommendations_nonempty (avg_vi : ℚ) (hs : String) (hc : ℚ)
    (dets : List Detection) (dn ct : String) :
    (fuse avg_vi hs hc dets dn ct).recommendations ≠ [] ∧
    ((applyRules avg_vi hs hc dets dn ct).recommendations = [] →
      (fuse avg_vi hs hc dets dn ct).recommendations = [defaultRec]) :=
  ⟨applyDefaultRec_recs_ne_nil _, fun h => applyDefaultRec_recs_nil h⟩

/-- C9: the fuse step is a deterministic pure mapping with no hidden
state: a second call on the engine state left by a first call with the
same inputs returns the same diagnosis, and the engine state is unchanged
by every call. -/
theorem fusion_engine_stateless (engine : FusionEngine)
    (mask : List (List Nat)) (hs : String) (hc : ℚ) (dets : List Detection)
    (vi : List ℚ) (dn ct : String) :
    ((engine.fuseResults mask hs hc dets vi dn ct).2.fuseResults
        mask hs hc dets vi dn ct).1 =
      (engine.fuseResults mask hs hc dets vi dn ct).1 ∧
    (engine.fuseResults mask hs hc dets vi dn ct).2 = engine :=
  ⟨rfl, rfl⟩

/-- C8: the fusion output depends only on the mean of the vegetation-index
array, the health record and the detection list: two calls agreeing on
those values return equal diagnoses even when the segmentation masks
differ and the underlying index arrays differ. -/
theorem fuse_results_mask_irrelevant (mask1 mask2 : List (List Nat))
    (hs : String) (hc : ℚ) (dets : List Detection) (vi1 vi2 : List ℚ)
    (dn ct : String) (h1 : vi1 ≠ []) (h2 : vi2 ≠ [])
    (hm : npMean vi1 = npMean vi2) :
    fuse_results mask1 hs hc dets vi1 dn ct =
      fuse_results mask2 hs hc dets vi2 dn ct := by
  unfold fuse_results
  rw [hm]

/-- Witness for C8 at a concrete input: different masks and different
two-pixel index arrays with the same mean 0.5. -/
theorem fuse_results_mask_irrelevant_witness :
    fuse_results [[1]] "Healthy" 0.99 [] [0.5] "healthy" "Corn" =
      fuse_results [[0], [7]] "Healthy" 0.99 [] [0.25, 0.75] "healthy" "Corn" :=
  fuse_results_mask_irrelevant [[1]] [[0], [7]] "Healthy" 0.99 [] [0.5]
    [0.25, 0.75] "healthy" "Corn" (by simp) (by simp) (by norm_num [npMean])

/-- C10: `WeedPestDetector.detect` never propagates an exception: an
unavailable detector and a raising model call both degrade to an empty
detection list with a status message, a successful call returns "Success",
every returned detection carries the category its label categorizes to
(weed or pest, nothing else), a weed-keyword match wins over a pest match,
and a label matching neither keyword table is dropped. -/
theorem detect_error_handling :
    (∀ inference, WeedPestDetector.detect { available := false } inference =
      ([], "YOLOv8 not available")) ∧
    (∀ e, WeedPestDetector.detect { available := true } (Except.error e) =
      ([], "Detection failed: " ++ e)) ∧
    (∀ boxes, (WeedPestDetector.detect { available := true }
      (Except.ok boxes)).2 = "Success") ∧
    (∀ boxes, ∀ d ∈ (WeedPestDetector.detect { available := true }
        (Except.ok boxes)).1,
      WeedPestDetector.categorize_detection d.label = some d.category ∧
        (d.category = "weed" ∨ d.category = "pest")) ∧
    (∀ label, (weed_keywords.any fun kw => strContainsSub label.toLower kw) = true →
      WeedPestDetector.categorize_detection label = some "weed") ∧
    (∀ label, (weed_keywords.any fun kw => strContainsSub label.toLower kw) = false →
      (pest_keywords.any fun kw => strContainsSub label.toLower kw) = false →
      WeedPestDetector.categorize_detection label = none) := by
  refine ⟨fun inference => rfl, fun e => rfl, fun boxes => rfl, ?_, ?_, ?_⟩
  · intro boxes d hd
    unfold WeedPestDetector.detect at hd
    simp only [Bool.not_true, Bool.false_eq_true, if_false, ite_false] at hd
    rw [List.mem_filterMap] at hd
    obtain ⟨box, hbox, hmap⟩ := hd
    rw [Option.map_eq_some'] at hmap
    obtain ⟨cat, hcat, hdd⟩ := hmap
    subst hdd
    refine ⟨hcat, ?_⟩
    unfold WeedPestDetector.categorize_detection at hcat
    simp only at hcat
    split at hcat
    · exact Or.inl (Option.some.inj hcat).symm
    · split at hcat
      · exact Or.inr (Option.some.inj hcat).symm
      · exact absurd hcat (by simp)
  · intro label h
    unfold WeedPestDetector.categorize_detection
    simp [h]
  · intro label h1 h2
    unfold WeedPestDetector.categorize_detection
    simp [h1, h2]

theorem roundHalfEven_intCast (n : ℤ) : roundHalfEven ((n : ℚ)) = n := by
  simp only [roundHalfEven, Rat.num_intCast, Rat.den_intCast, Nat.cast_one,
    Int.fdiv_one, Int.cast_id, sub_self]
  norm_num

theorem formatPercent2_ofNine : formatPercent2 0.9 = "90.00%" := by
  unfold formatPercent2
  have h : (0.9 : ℚ) * 10000 = ((9000 : ℤ) : ℚ) := by norm_num
  rw [h, roundHalfEven_intCast]
  rfl

theorem diseaseIssue_blight :
    diseaseIssue "Leaf Blight" 0.9 =
      "Disease detected: Leaf Blight (confidence: 90.00%)" := by
  unfold diseaseIssue
  rw [formatPercent2_ofNine]
  decide

theorem fuse_blight_issues_eq :
    (fuse 0.1 "Diseased" 0.9 [] "Leaf Blight" "Tomato").issues =
      [lowVegIssue, diseaseIssue "Leaf Blight" 0.9, criticalIssue] := by
  rw [fuse_issues]
  norm_num [rule2Issues, weed_count, pest_count]

/-- C2 counterexample: at the literal input of the claim, no issue text
contains the one-decimal percentage "90.0%" as a substring (the source
formats the confidence with two decimal digits). -/
theorem fuse_leaf_blight_no_one_decimal_percent :
    ((fuse 0.1 "Diseased" 0.9 [] "Leaf Blight" "Tomato").issues.all
      (fun s => !(strContainsSub s "90.0%"))) = true := by
  rw [fuse_blight_issues_eq, diseaseIssue_blight]
  decide

/-- C2 (amended): at the literal input avg_vi=0.1,
health=(Diseased, 0.9, "Leaf Blight", "Tomato"), no detections, the
diagnosis has exactly the three claimed issue entries in rule order — the
low-vegetation-index entry, a disease entry referencing "Leaf Blight" and
the confidence rendered as "90.00%" (two decimal digits, as the code
formats it), and the CRITICAL compound entry. -/
theorem fuse_leaf_blight_issues :
    (fuse 0.1 "Diseased" 0.9 [] "Leaf Blight" "Tomato").issues =
      [lowVegIssue, diseaseIssue "Leaf Blight" 0.9, criticalIssue] ∧
    3 ≤ (fuse 0.1 "Diseased" 0.9 [] "Leaf Blight" "Tomato").issues.length ∧
    strContainsSub (diseaseIssue "Leaf Blight" 0.9) "Leaf Blight" = true ∧
    strContainsSub (diseaseIssue "Leaf Blight" 0.9) "90.00%" = true := by
  refine ⟨fuse_blight_issues_eq, ?_, ?_, ?_⟩
  · rw [fuse_blight_issues_eq]; decide
  · rw [diseaseIssue_blight]; decide
  · rw [diseaseIssue_blight]; decide

theorem fuse_healthy_corn_issues_eq :
    (fuse 0.8 "Healthy" 0.99 [] "healthy" "Corn").issues = [] := by
  rw [fuse_issues]
  norm_num [weed_count, pest_count]
  decide

theorem fuse_healthy_corn_recs_eq :
    (fuse 0.8 "Healthy" 0.99 [] "healthy" "Corn").recommendations =
      [defaultRec] := by
  unfold fuse
  apply applyDefaultRec_recs_nil
  rw [applyRules_recs]
  norm_num [weed_count, pest_count]
  decide

/-- C3 counterexample: at the literal input of the claim, the
recommendations list is not the lowercase singleton the claim states (the
source capitalizes the default entry). -/
theorem fuse_healthy_corn_not_lowercase :
    (fuse 0.8 "Healthy" 0.99 [] "healthy" "Corn").recommendations ≠
      ["continue regular monitoring"] := by
  rw [fuse_healthy_corn_recs_eq]
  decide

/-- C3 (amended): at the literal input avg_vi=0.8,
health=(Healthy, 0.99, "healthy", "Corn"), no detections, the diagnosis
has an empty issues list and its recommendations list is exactly the
one-element list ["Continue regular monitoring"] (capitalized as in the
source). -/
theorem fuse_healthy_corn_default :
    (fuse 0.8 "Healthy" 0.99 [] "healthy" "Corn").issues = [] ∧
    (fuse 0.8 "Healthy" 0.99 [] "healthy" "Corn").recommendations =
      ["Continue regular monitoring"] :=
  ⟨fuse_healthy_corn_issues_eq, by rw [fuse_healthy_corn_recs_eq]; decide⟩

/-- C6: whenever the average vegetation index is strictly below 0.3 and
the health status is Diseased, the compound rule appends the CRITICAL
issue (as the final issue entry) and the immediate-intervention
recommendation, on top of the entries of rules 1 and 2, which all remain
present. -/
theorem fuse_compound_critical (avg_vi : ℚ) (hs : String) (hc : ℚ)
    (dets : List Detection) (dn ct : String)
    (hv : avg_vi < 0.3) (hd : hs = "Diseased") :
    criticalIssue ∈ (fuse avg_vi hs hc dets dn ct).issues ∧
    (fuse avg_vi hs hc dets dn ct).issues.getLast? = some criticalIssue ∧
    interventionRec ∈ (fuse avg_vi hs hc dets dn ct).recommendations ∧
    lowVegIssue ∈ (fuse avg_vi hs hc dets dn ct).issues ∧
    diseaseIssue dn hc ∈ (fuse avg_vi hs hc dets dn ct).issues ∧
    inspectRec ∈ (fuse avg_vi hs hc dets dn ct).recommendations ∧
    treatRec dn ∈ (fuse avg_vi hs hc dets dn ct).recommendations := by
  subst hd
  have hIss : (fuse avg_vi "Diseased" hc dets dn ct).issues =
      [lowVegIssue] ++ [diseaseIssue dn hc] ++
      (if 0 < weed_count dets then [weedIssue (weed_count dets)] else []) ++
      (if 0 < pest_count dets then [pestIssue (pest_count dets)] else []) ++
      [criticalIssue] := by
    rw [fuse_issues]
    simp [hv, rule2Issues]
  have hne : (applyRules avg_vi "Diseased" hc dets dn ct).recommendations ≠ [] := by
    rw [applyRules_recs]
    simp [hv]
  have hRecs : (fuse avg_vi "Diseased" hc dets dn ct).recommendations =
      [inspectRec] ++ [treatRec dn] ++
      (if 0 < weed_count dets then [herbicideRec] else []) ++
      (if 0 < pest_count dets then [ipmRec] else []) ++
      [interventionRec] := by
    unfold fuse
    rw [applyDefaultRec_recs_of_ne hne, applyRules_recs]
    simp [hv, rule2Recs]
  refine ⟨?_, ?_, ?_, ?_, ?_, ?_, ?_⟩
  · rw [hIss]; simp
  · rw [hIss, List.getLast?_append]; rfl
  · rw [hRecs]; simp
  · rw [hIss]; simp
  · rw [hIss]; simp
  · rw [hRecs]; simp
  · rw [hRecs]; simp

/-- Witness for C6 at the concrete diseased low-index input. -/
theorem fuse_compound_critical_witness :
    criticalIssue ∈ (fuse 0.1 "Diseased" 0.9 [] "Leaf Blight" "Tomato").issues ∧
    (fuse 0.1 "Diseased" 0.9 [] "Leaf Blight" "Tomato").issues.getLast? =
      some criticalIssue ∧
    interventionRec ∈
      (fuse 0.1 "Diseased" 0.9 [] "Leaf Blight" "Tomato").recommendations ∧
    lowVegIssue ∈ (fuse 0.1 "Diseased" 0.9 [] "Leaf Blight" "Tomato").issues ∧
    diseaseIssue "Leaf Blight" 0.9 ∈
      (fuse 0.1 "Diseased" 0.9 [] "Leaf Blight" "Tomato").issues ∧
    inspectRec ∈ (fuse 0.1 "Diseased" 0.9 [] "Leaf Blight" "Tomato").recommendations ∧
    treatRec "Leaf Blight" ∈
      (fuse 0.1 "Diseased" 0.9 [] "Leaf Blight" "Tomato").recommendations :=
  fuse_compound_critical 0.1 "Diseased" 0.9 [] "Leaf Blight" "Tomato"
    (by norm_num) rfl

/-- C7: the diagnosis copies the health status and confidence verbatim;
for status Healthy or Unknown rule 2 appends no issue and no
recommendation, and for status Stressed it appends the stress issue and
the irrigation/nutrient recommendation. -/
theorem fuse_health_status_copy (avg_vi : ℚ) (hs : String) (hc : ℚ)
    (dets : List Detection) (dn ct : String) :
    (fuse avg_vi hs hc dets dn ct).overall_health = hs ∧
    (fuse avg_vi hs hc dets dn ct).confidence = hc ∧
    (hs = "Healthy" ∨ hs = "Unknown" →
      rule2Issues hs hc dn = [] ∧ rule2Recs hs dn = []) ∧
    (hs = "Stressed" →
      rule2Issues hs hc dn = [stressIssue hc] ∧
      rule2Recs hs dn = [irrigationRec] ∧
      stressIssue hc ∈ (fuse avg_vi hs hc dets dn ct).issues ∧
      irrigationRec ∈ (fuse avg_vi hs hc dets dn ct).recommendations) := by
  refine ⟨fuse_overall avg_vi hs hc dets dn ct,
    fuse_confidence avg_vi hs hc dets dn ct, ?_, ?_⟩
  · rintro (h | h) <;> subst h <;>
      exact ⟨by simp [rule2Issues], by simp [rule2Recs]⟩
  · intro h
    subst h
    have h1 : rule2Issues "Stressed" hc dn = [stressIssue hc] := by
      simp [rule2Issues]
    have h2 : rule2Recs "Stressed" dn = [irrigationRec] := by
      simp [rule2Recs]
    refine ⟨h1, h2, ?_, ?_⟩
    · rw [fuse_issues, h1]; simp
    · have hne : (applyRules avg_vi "Stressed" hc dets dn ct).recommendations ≠ [] := by
        rw [applyRules_recs, h2]; simp
      unfold fuse
      rw [applyDefaultRec_recs_of_ne hne, applyRules_recs, h2]
      simp

theorem not_mem_ite_singleton {c : Prop} [Decidable c] {x a : String}
    (h : a ≠ x) : a ∉ (if c then [x] else []) := by
  rw [mem_ite_singleton]
  rintro ⟨-, h2⟩
  exact h h2

theorem mem_rule2Issues {a : String} {hs : String} {hc : ℚ} {dn : String} :
    a ∈ rule2Issues hs hc dn ↔
      (hs = "Diseased" ∧ a = diseaseIssue dn hc) ∨
      (hs ≠ "Diseased" ∧ hs = "Stressed" ∧ a = stressIssue hc) := by
  unfold rule2Issues
  split
  · next h => simp [h]
  · next h =>
    split
    · next h2 => simp [h, h2]
    · next h2 => simp [h, h2]

theorem mem_rule2Recs {a : String} {hs : String} {dn : String} :
    a ∈ rule2Recs hs dn ↔
      (hs = "Diseased" ∧ a = treatRec dn) ∨
      (hs ≠ "Diseased" ∧ hs = "Stressed" ∧ a = irrigationRec) := by
  unfold rule2Recs
  split
  · next h => simp [h]
  · next h =>
    split
    · next h2 => simp [h, h2]
    · next h2 => simp [h, h2]

theorem lowVeg_not_mem_rule2Issues (hs : String) (hc : ℚ) (dn : String) :
    lowVegIssue ∉ rule2Issues hs hc dn := by
  rw [mem_rule2Issues]
  rintro (⟨-, h⟩ | ⟨-, -, h⟩)
  · exact (diseaseIssue_ne_lowVeg dn hc) h.symm
  · exact (stressIssue_ne_lowVeg hc) h.symm

theorem inspect_not_mem_rule2Recs (hs dn : String) :
    inspectRec ∉ rule2Recs hs dn := by
  rw [mem_rule2Recs]
  rintro (⟨-, h⟩ | ⟨-, -, h⟩)
  · exact (treatRec_ne_inspectRec dn) h.symm
  · exact absurd h (by decide)

theorem weedIssue_not_mem_rule2Issues (k : Nat) (hs : String) (hc : ℚ)
    (dn : String) : weedIssue k ∉ rule2Issues hs hc dn := by
  rw [mem_rule2Issues]
  rintro (⟨-, h⟩ | ⟨-, -, h⟩)
  · exact (weedIssue_ne_diseaseIssue k dn hc) h
  · exact (weedIssue_ne_stressIssue k hc) h

theorem pestIssue_not_mem_rule2Issues (k : Nat) (hs : String) (hc : ℚ)
    (dn : String) : pestIssue k ∉ rule2Issues hs hc dn := by
  rw [mem_rule2Issues]
  rintro (⟨-, h⟩ | ⟨-, -, h⟩)
  · exact (pestIssue_ne_diseaseIssue k dn hc) h
  · exact (pestIssue_ne_stressIssue k hc) h

theorem herbicide_not_mem_rule2Recs (hs dn : String) :
    herbicideRec ∉ rule2Recs hs dn := by
  rw [mem_rule2Recs]
  rintro (⟨-, h⟩ | ⟨-, -, h⟩)
  · exact (treatRec_ne_herbicideRec dn) h.symm
  · exact absurd h (by decide)

theorem ipm_not_mem_rule2Recs (hs dn : String) :
    ipmRec ∉ rule2Recs hs dn := by
  rw [mem_rule2Recs]
  rintro (⟨-, h⟩ | ⟨-, -, h⟩)
  · exact (treatRec_ne_ipmRec dn) h.symm
  · exact absurd h (by decide)

/-- C4: the vegetation-stress rule compares strictly against 0.3: the
low-vegetation issue and its recommendation appear in the output exactly
when the average vegetation index is strictly below 0.3, so the value 0.3
itself never triggers the rule and every strictly smaller value does. -/
theorem fuse_vegetation_threshold_strict (avg_vi : ℚ) (hs : String) (hc : ℚ)
    (dets : List Detection) (dn ct : String) :
    (lowVegIssue ∈ (fuse avg_vi hs hc dets dn ct).issues ↔ avg_vi < 0.3) ∧
    (inspectRec ∈ (fuse avg_vi hs hc dets dn ct).recommendations ↔
      avg_vi < 0.3) := by
  by_cases hv : avg_vi < 0.3
  · constructor
    · rw [fuse_issues]; simp [hv]
    · have hne : (applyRules avg_vi hs hc dets dn ct).recommendations ≠ [] := by
        rw [applyRules_recs]; simp [hv]
      unfold fuse
      rw [applyDefaultRec_recs_of_ne hne, applyRules_recs]
      simp [hv]
  · have h5 : ¬(avg_vi < 0.3 ∧ hs = "Diseased") := fun hcon => hv hcon.1
    constructor
    · rw [fuse_issues, if_neg hv, if_neg h5]
      simp only [List.nil_append, List.append_nil, List.mem_append]
      constructor
      · rintro ((h | h) | h)
        · exact absurd h (lowVeg_not_mem_rule2Issues hs hc dn)
        · exact absurd h (not_mem_ite_singleton (Ne.symm (weedIssue_ne_lowVeg _)))
        · exact absurd h (not_mem_ite_singleton (Ne.symm (pestIssue_ne_lowVeg _)))
      · intro h
        exact absurd h hv
    · by_cases hnil : (applyRules avg_vi hs hc dets dn ct).recommendations = []
      · unfold fuse
        rw [applyDefaultRec_recs_nil hnil]
        constructor
        · intro h
          simp only [List.mem_singleton] at h
          exact absurd h (by decide)
        · intro h
          exact absurd h hv
      · unfold fuse
        rw [applyDefaultRec_recs_of_ne hnil, applyRules_recs, if_neg hv, if_neg h5]
        simp only [List.nil_append, List.append_nil, List.mem_append]
        constructor
        · rintro ((h | h) | h)
          · exact absurd h (inspect_not_mem_rule2Recs hs dn)
          · exact absurd h (not_mem_ite_singleton (by decide))
          · exact absurd h (not_mem_ite_singleton (by decide))
        · intro h
          exact absurd h hv

/-- C5: rule 3 counts weed and pest detections separately and
independently: when the weed count is positive the issues list carries
exactly one weed-count entry (stating that count) and the herbicide
recommendation, and likewise for pests; when a count is zero, no issue
text of that kind appears at all. -/
theorem fuse_weed_pest_counting (avg_vi : ℚ) (hs : String) (hc : ℚ)
    (dets : List Detection) (dn ct : String) :
    ((fuse avg_vi hs hc dets dn ct).issues.count (weedIssue (weed_count dets)) =
      if 0 < weed_count dets then 1 else 0) ∧
    ((fuse avg_vi hs hc dets dn ct).issues.count (pestIssue (pest_count dets)) =
      if 0 < pest_count dets then 1 else 0) ∧
    (herbicideRec ∈ (fuse avg_vi hs hc dets dn ct).recommendations ↔
      0 < weed_count dets) ∧
    (ipmRec ∈ (fuse avg_vi hs hc dets dn ct).recommendations ↔
      0 < pest_count dets) ∧
    (weed_count dets = 0 →
      ∀ k, weedIssue k ∉ (fuse avg_vi hs hc dets dn ct).issues) ∧
    (pest_count dets = 0 →
      ∀ k, pestIssue k ∉ (fuse avg_vi hs hc dets dn ct).issues) := by
  refine ⟨?_, ?_, ?_, ?_, ?_, ?_⟩
  · rw [fuse_issues, List.count_append, List.count_append, List.count_append,
      List.count_append,
      List.count_eq_zero_of_not_mem (not_mem_ite_singleton (weedIssue_ne_lowVeg _)),
      List.count_eq_zero_of_not_mem (weedIssue_not_mem_rule2Issues _ hs hc dn),
      List.count_eq_zero_of_not_mem
        (not_mem_ite_singleton (weedIssue_ne_pestIssue _ _)),
      List.count_eq_zero_of_not_mem
        (not_mem_ite_singleton (weedIssue_ne_criticalIssue _))]
    by_cases hw : 0 < weed_count dets
    · simp [hw, List.count_singleton]
    · simp [hw]
  · rw [fuse_issues, List.count_append, List.count_append, List.count_append,
      List.count_append,
      List.count_eq_zero_of_not_mem (not_mem_ite_singleton (pestIssue_ne_lowVeg _)),
      List.count_eq_zero_of_not_mem (pestIssue_not_mem_rule2Issues _ hs hc dn),
      List.count_eq_zero_of_not_mem
        (not_mem_ite_singleton (Ne.symm (weedIssue_ne_pestIssue _ _))),
      List.count_eq_zero_of_not_mem
        (not_mem_ite_singleton (pestIssue_ne_criticalIssue _))]
    by_cases hp : 0 < pest_count dets
    · simp [hp, List.count_singleton]
    · simp [hp]
  · by_cases hw : 0 < weed_count dets
    · have hne : (applyRules avg_vi hs hc dets dn ct).recommendations ≠ [] := by
        rw [applyRules_recs]
        simp [hw]
      unfold fuse
      rw [applyDefaultRec_recs_of_ne hne, applyRules_recs]
      simp [hw]
    · by_cases hnil : (applyRules avg_vi hs hc dets dn ct).recommendations = []
      · unfold fuse
        rw [applyDefaultRec_recs_nil hnil]
        constructor
        · intro h
          simp only [List.mem_singleton] at h
          exact absurd h (by decide)
        · intro h
          exact absurd h hw
      · unfold fuse
        rw [applyDefaultRec_recs_of_ne hnil, applyRules_recs, if_neg hw]
        simp only [List.nil_append, List.append_nil, List.mem_append]
        constructor
        · rintro (((h | h) | h) | h)
          · exact absurd h (not_mem_ite_singleton (by decide))
          · exact absurd h (herbicide_not_mem_rule2Recs hs dn)
          · exact absurd h (not_mem_ite_singleton (by decide))
          · exact absurd h (not_mem_ite_singleton (by decide))
        · intro h
          exact absurd h hw
  · by_cases hp : 0 < pest_count dets
    · have hne : (applyRules avg_vi hs hc dets dn ct).recommendations ≠ [] := by
        rw [applyRules_recs]
        simp [hp]
      unfold fuse
      rw [applyDefaultRec_recs_of_ne hne, applyRules_recs]
      simp [hp]
    · by_cases hnil : (applyRules avg_vi hs hc dets dn ct).recommendations = []
      · unfold fuse
        rw [applyDefaultRec_recs_nil hnil]
        constructor
        · intro h
          simp only [List.mem_singleton] at h
          exact absurd h (by decide)
        · intro h
          exact absurd h hp
      · unfold fuse
        rw [applyDefaultRec_recs_of_ne hnil, applyRules_recs, if_neg hp]
        simp only [List.nil_append, List.append_nil, List.mem_append]
        constructor
        · rintro (((h | h) | h) | h)
          · exact absurd h (not_mem_ite_singleton (by decide))
          · exact absurd h (ipm_not_mem_rule2Recs hs dn)
          · exact absurd h (not_mem_ite_singleton (by decide))
          · exact absurd h (not_mem_ite_singleton (by decide))
        · intro h
          exact absurd h hp
  · intro h0 k
    rw [fuse_issues]
    have hw : ¬ 0 < weed_count dets := by omega
    rw [if_neg hw]
    simp only [List.nil_append, List.append_nil, List.mem_append]
    rintro (((h | h) | h) | h)
    · exact absurd h (not_mem_ite_singleton (weedIssue_ne_lowVeg k))
    · exact absurd h (weedIssue_not_mem_rule2Issues k hs hc dn)
    · exact absurd h (not_mem_ite_singleton (weedIssue_ne_pestIssue k _))
    · exact absurd h (not_mem_ite_singleton (weedIssue_ne_criticalIssue k))
  · intro h0 k
    rw [fuse_issues]
    have hp : ¬ 0 < pest_count dets := by omega
    rw [if_neg hp]
    simp only [List.nil_append, List.append_nil, List.mem_append]
    rintro (((h | h) | h) | h)
    · exact absurd h (not_mem_ite_singleton (pestIssue_ne_lowVeg k))
    · exact absurd h (pestIssue_not_mem_rule2Issues k hs hc dn)
    · exact absurd h (not_mem_ite_singleton (Ne.symm (weedIssue_ne_pestIssue _ k)))
    · exact absurd h (not_mem_ite_singleton (pestIssue_ne_criticalIssue k))

/-- Witness for C5 at the literal input of the claim: two weed detections
and one pest detection with avg_vi=0.5 and an Unknown health record give
one "2 weed(s)" issue, one "1 pest(s)" issue and both recommendations. -/
theorem fuse_weed_pest_counting_witness :
    weed_count [Detection.mk [] 0 "" "weed", Detection.mk [] 0 "" "weed",
      Detection.mk [] 0 "" "pest"] = 2 ∧
    pest_count [Detection.mk [] 0 "" "weed", Detection.mk [] 0 "" "weed",
      Detection.mk [] 0 "" "pest"] = 1 ∧
    (fuse 0.5 "Unknown" 0 [Detection.mk [] 0 "" "weed", Detection.mk [] 0 "" "weed",
      Detection.mk [] 0 "" "pest"] "" "").issues.count (weedIssue 2) = 1 ∧
    (fuse 0.5 "Unknown" 0 [Detection.mk [] 0 "" "weed", Detection.mk [] 0 "" "weed",
      Detection.mk [] 0 "" "pest"] "" "").issues.count (pestIssue 1) = 1 ∧
    herbicideRec ∈ (fuse 0.5 "Unknown" 0 [Detection.mk [] 0 "" "weed",
      Detection.mk [] 0 "" "weed", Detection.mk [] 0 "" "pest"] "" "").recommendations ∧
    ipmRec ∈ (fuse 0.5 "Unknown" 0 [Detection.mk [] 0 "" "weed",
      Detection.mk [] 0 "" "weed", Detection.mk [] 0 "" "pest"] "" "").recommendations := by
  have hw : weed_count [Detection.mk [] 0 "" "weed", Detection.mk [] 0 "" "weed",
      Detection.mk [] 0 "" "pest"] = 2 := by decide
  have hp : pest_count [Detection.mk [] 0 "" "weed", Detection.mk [] 0 "" "weed",
      Detection.mk [] 0 "" "pest"] = 1 := by decide
  have h := fuse_weed_pest_counting 0.5 "Unknown" 0
    [Detection.mk [] 0 "" "weed", Detection.mk [] 0 "" "weed",
      Detection.mk [] 0 "" "pest"] "" ""
  rw [hw, hp] at h
  refine ⟨hw, hp, ?_, ?_, ?_, ?_⟩
  · have := h.1
    rw [if_pos (by decide : (0 : Nat) < 2)] at this
    exact this
  · have := h.2.1
    rw [if_pos (by decide : (0 : Nat) < 1)] at this
    exact this
  · exact (h.2.2.1).mpr (by decide)
  · exact (h.2.2.2.1).mpr (by decide)
